import Mathlib

/-!
Shallow embedding of the `currencyapi-rs` client library.

The embedding follows the Rust source: `src/utils.rs` (URL construction),
`src/api/mod.rs` (the `Currencyapi` struct and its six operations) and
`src/models/mod.rs` (the `DetailsResponse` decoded from JSON bodies).
External collaborators (the `url` crate's URL type, the
`form_urlencoded` query serializer, and `serde_json`) are modelled by
executable Lean functions faithful to their behaviour on the inputs this
crate feeds them.
-/

/-- UTF-8 encoding of one character, as a list of byte values. -/
def utf8CharBytes (c : Char) : List Nat :=
  let n := c.toNat
  if n < 128 then [n]
  else if n < 2048 then [192 + n / 64, 128 + n % 64]
  else if n < 65536 then [224 + n / 4096, 128 + n / 64 % 64, 128 + n % 64]
  else [240 + n / 262144, 128 + n / 4096 % 64, 128 + n / 64 % 64, 128 + n % 64]

/-- UTF-8 encoding of a string, as a list of byte values. -/
def utf8Bytes (s : String) : List Nat :=
  s.data.flatMap utf8CharBytes

/-- Uppercase hexadecimal digit for `n < 16`. -/
def hexDigit (n : Nat) : Char :=
  if n < 10 then Char.ofNat (48 + n) else Char.ofNat (55 + n)

/-- Percent-encoding of one byte: `%` followed by two uppercase hex digits. -/
def percentByte (b : Nat) : List Char :=
  [Char.ofNat 37, hexDigit (b / 16 % 16), hexDigit (b % 16)]

/-- Bytes the `application/x-www-form-urlencoded` serializer keeps as-is:
ASCII alphanumerics and `*`, `-`, `.`, `_`.  This is the encode set used by
the `url` crate's `query_pairs_mut().append_pair`. -/
def formSafe (b : Nat) : Bool :=
  (48 ≤ b && b ≤ 57) || (65 ≤ b && b ≤ 90) || (97 ≤ b && b ≤ 122) ||
  b == 42 || b == 45 || b == 46 || b == 95

/-- Form-urlencoded serialization of one byte: safe bytes kept, space becomes
`+`, everything else percent-encoded. -/
def formEncodeByte (b : Nat) : List Char :=
  if formSafe b then [Char.ofNat b]
  else if b == 32 then [Char.ofNat 43]
  else percentByte b

/-- Form-urlencoded serialization of a string's UTF-8 bytes, as performed by
`Url::query_pairs_mut().append_pair` on each key and value. -/
def formEncode (s : String) : String :=
  String.mk ((utf8Bytes s).flatMap formEncodeByte)

/-- Bytes percent-encoded by the WHATWG path percent-encode set (C0
controls, space, `"`, `#`, `<`, `>`, `?`, the backquote, both curly
brackets, and all non-ASCII bytes). -/
def pathEscaped (b : Nat) : Bool :=
  b ≤ 31 || 127 ≤ b || b == 32 || b == 34 || b == 35 || b == 60 || b == 62 ||
  b == 63 || b == 96 || b == 123 || b == 125

/-- Path serialization of one byte: backslash acts as a segment separator in
special (http-scheme) URLs, escaped bytes are percent-encoded, the rest kept. -/
def pathEncodeByte (b : Nat) : List Char :=
  if b == 92 then [Char.ofNat 47]
  else if pathEscaped b then percentByte b
  else [Char.ofNat b]

/-- A parsed URL, modelling the parts of the `url` crate's `Url` type that
this crate uses: scheme, host, serialized path, and the query.  The `url`
crate stores the query as one percent-encoded string; the model keeps the
`&`-separated units of that string as a list (joined back by
`Url.queryString` and `Url.serialize`), which is observationally the same
for the parse/append/serialize operations this crate performs. -/
structure Url where
  scheme : String
  host : String
  path : String
  query : Option (List String)
deriving DecidableEq, Repr

/-- Model of `Url::set_path` on a URL with a host: the argument is
re-serialized with the path percent-encode set and a leading slash is
ensured.  Dot-segment normalization is not modelled; no caller in this
crate passes dot segments. -/
def Url.setPath (u : Url) (p : String) : Url :=
  let chars := (utf8Bytes p).flatMap pathEncodeByte
  let chars := if chars.head? = some (Char.ofNat 47) then chars else Char.ofNat 47 :: chars
  { u with path := String.mk chars }

/-- Form-urlencoded serialization of one query pair, `k=v`. -/
def encPair (k v : String) : String :=
  formEncode k ++ "=" ++ formEncode v

/-- Model of `url.query_pairs_mut().append_pair(k, v)`: the form-urlencoded
pair is appended to the existing query (the serializer writes a `&` before
it exactly when the existing query is non-empty, which joining the units
with `&` reproduces). -/
def Url.appendPair (u : Url) (k v : String) : Url :=
  { u with query := some (match u.query with
      | none => [encPair k v]
      | some l => l ++ [encPair k v]) }

/-- The raw percent-encoded query string, as `Url::query` returns it. -/
def Url.queryString (u : Url) : Option String :=
  u.query.map (fun l => String.intercalate "&" l)

/-- Serialization of a `Url` back to a string, `<scheme>://<host><path>?<query>`. -/
def Url.serialize (u : Url) : String :=
  u.scheme ++ "://" ++ u.host ++ u.path ++
    (match u.query with | none => "" | some l => "?" ++ String.intercalate "&" l)

/-- Model of `Url::parse` restricted to the shapes this crate feeds it: an
absolute http(s)-style URL already in normal form.  Requires a non-empty
alphabetic scheme, the literal `://`, a non-empty host, then reads the path
and the optional query; any other shape fails. -/
def parseUrl (s : String) : Option Url :=
  let cs := s.data
  let scheme := cs.takeWhile (fun c => c.isAlpha)
  let rest := cs.drop scheme.length
  if scheme.isEmpty then none
  else
    match rest with
    | ':' :: c1 :: c2 :: rest2 =>
      if c1 = Char.ofNat 47 && c2 = Char.ofNat 47 then
        let host := rest2.takeWhile
          (fun c => c ≠ Char.ofNat 47 && c ≠ '?' && c ≠ Char.ofNat 35)
        let rest3 := rest2.drop host.length
        if host.isEmpty then none
        else
          let pathChars := rest3.takeWhile (fun c => c ≠ '?' && c ≠ Char.ofNat 35)
          let rest4 := rest3.drop pathChars.length
          let path := if pathChars.isEmpty then "/" else String.mk pathChars
          let query := match rest4 with
            | '?' :: qs =>
              let qd := qs.takeWhile (fun c => c ≠ Char.ofNat 35)
              some (if qd.isEmpty then [] else [String.mk qd])
            | _ => none
          some { scheme := String.mk scheme, host := String.mk host,
                 path := path, query := query }
      else none
    | _ => none

/-- The error enum `CurrencyapiError`.  The enum's own module (`src/error.rs`)
is not part of the provided sources; its variants are modelled from their
uses in `src/api/mod.rs` and `src/utils.rs` and from the spec's section 7.
Wrapped transport error payloads carry no information used by any claim and
are dropped. -/
inductive CurrencyapiError where
  | clientConstruction
  | urlConstruction
  | requestError
  | responseParsingError (body : String)
deriving DecidableEq, Repr

/-- The `BASE_URL` constant from `src/utils.rs`. -/
def BASE_URL : String := "https://api.currencyapi.com/v3/"

/-- Rust `str::trim_start_matches('/')`: drops every leading slash. -/
def trimStartSlashes (s : String) : String :=
  String.mk (s.data.dropWhile (fun c => c = Char.ofNat 47))

/-- Rust `str::trim_end_matches('/')`: drops every trailing slash. -/
def trimEndSlashes (s : String) : String :=
  String.mk ((s.data.reverse.dropWhile (fun c => c = Char.ofNat 47)).reverse)

/-- The `construct_base_url` function from `src/utils.rs`: parses the base
URL constant, appends the optional path (leading slashes of the argument
stripped, trailing slashes of the base path trimmed, joined by one slash),
then appends the `apikey` query pair. -/
def construct_base_url (api_key : String) (with_path : Option String) :
    Except CurrencyapiError Url :=
  match parseUrl BASE_URL with
  | none => .error .urlConstruction
  | some url =>
    let url := match with_path with
      | none => url
      | some path =>
        let trimmed_path := trimStartSlashes path
        let new_path := trimEndSlashes url.path ++ "/" ++ trimmed_path
        url.setPath new_path
    .ok (url.appendPair "apikey" api_key)

example : construct_base_url "123" none =
    .ok ⟨"https", "api.currencyapi.com", "/v3/", some ["apikey=123"]⟩ := by rfl

example : construct_base_url "123" (some "/test/path") =
    .ok ⟨"https", "api.currencyapi.com", "/v3/test/path", some ["apikey=123"]⟩ := by rfl

/-- JSON values, modelling `serde_json::Value`.  Objects keep their fields in
source order; numbers are exact rationals. -/
inductive Json where
  | null
  | bool (b : Bool)
  | num (q : Rat)
  | str (s : String)
  | arr (elems : List Json)
  | obj (fields : List (String × Json))

/-- JSON insignificant whitespace characters. -/
def jsonWs (c : Char) : Bool :=
  c = ' ' || c = Char.ofNat 9 || c = Char.ofNat 10 || c = Char.ofNat 13

/-- Drops leading JSON whitespace. -/
def skipWs (cs : List Char) : List Char := cs.dropWhile jsonWs

/-- Value of a hexadecimal digit character, if any. -/
def hexVal (c : Char) : Option Nat :=
  if '0' ≤ c && c ≤ '9' then some (c.toNat - 48)
  else if 'a' ≤ c && c ≤ 'f' then some (c.toNat - 87)
  else if 'A' ≤ c && c ≤ 'F' then some (c.toNat - 55)
  else none

/-- Body of a JSON string literal, after the opening quote: returns the
decoded characters and the input after the closing quote.  Handles the
standard single-character escapes and simple `\uXXXX` escapes (surrogate
values are rejected; surrogate-pair decoding is not modelled, no claim's
input uses it).  Raw control characters are rejected. -/
def parseStrChars : List Char → Option (List Char × List Char)
  | [] => none
  | c :: rest =>
    if c = Char.ofNat 34 then some ([], rest)
    else if c = Char.ofNat 92 then
      match rest with
      | [] => none
      | e :: rest2 =>
        if e = 'u' then
          match rest2 with
          | h1 :: h2 :: h3 :: h4 :: rest3 =>
            match hexVal h1, hexVal h2, hexVal h3, hexVal h4 with
            | some v1, some v2, some v3, some v4 =>
              let n := 4096 * v1 + 256 * v2 + 16 * v3 + v4
              if 55296 ≤ n && n ≤ 57343 then none
              else
                match parseStrChars rest3 with
                | some (tl, rem) => some (Char.ofNat n :: tl, rem)
                | none => none
            | _, _, _, _ => none
          | _ => none
        else
          let dec : Option Char :=
            if e = Char.ofNat 34 then some (Char.ofNat 34)
            else if e = Char.ofNat 92 then some (Char.ofNat 92)
            else if e = Char.ofNat 47 then some (Char.ofNat 47)
            else if e = 'b' then some (Char.ofNat 8)
            else if e = 'f' then some (Char.ofNat 12)
            else if e = 'n' then some (Char.ofNat 10)
            else if e = 'r' then some (Char.ofNat 13)
            else if e = 't' then some (Char.ofNat 9)
            else none
          match dec with
          | none => none
          | some d =>
            match parseStrChars rest2 with
            | some (tl, rem) => some (d :: tl, rem)
            | none => none
    else if c.toNat < 32 then none
    else
      match parseStrChars rest with
      | some (tl, rem) => some (c :: tl, rem)
      | none => none

/-- Natural number denoted by a list of decimal digit characters. -/
def digitsToNat (ds : List Char) : Nat :=
  ds.foldl (fun a c => 10 * a + (c.toNat - 48)) 0

/-- Parse of a JSON number (optional minus, integer part without redundant
leading zero, optional fraction, optional exponent), as an exact rational. -/
def parseNumber (cs : List Char) : Option (Rat × List Char) :=
  let (neg, cs1) := match cs with
    | c :: rest => if c = '-' then (true, rest) else (false, cs)
    | [] => (false, ([] : List Char))
  let intDigits := cs1.takeWhile Char.isDigit
  if intDigits.isEmpty then none
  else if 1 < intDigits.length && intDigits.head? = some '0' then none
  else
    let cs2 := cs1.drop intDigits.length
    let (fracDigits, cs3) := match cs2 with
      | '.' :: rest =>
        let fd := rest.takeWhile Char.isDigit
        (fd, rest.drop fd.length)
      | _ => (([] : List Char), cs2)
    if cs2.head? = some '.' && fracDigits.isEmpty then none
    else
      let expPart : Option (Int × List Char) := match cs3 with
        | c :: rest =>
          if c = 'e' || c = 'E' then
            let (eneg, rest2) := match rest with
              | d :: rest3 =>
                if d = '-' then (true, rest3)
                else if d = '+' then (false, rest3)
                else (false, rest)
              | [] => (false, ([] : List Char))
            let expDigits := rest2.takeWhile Char.isDigit
            if expDigits.isEmpty then none
            else
              let e : Int := Int.ofNat (digitsToNat expDigits)
              some (if eneg then -e else e, rest2.drop expDigits.length)
          else some (0, cs3)
        | [] => some (0, cs3)
      match expPart with
      | none => none
      | some (e, rest) =>
        let mantissa : Int :=
          Int.ofNat (digitsToNat intDigits * 10 ^ fracDigits.length + digitsToNat fracDigits)
        let mantissa := if neg then -mantissa else mantissa
        let value : Rat :=
          if 0 ≤ e then mkRat (mantissa * 10 ^ e.toNat) (10 ^ fracDigits.length)
          else mkRat mantissa (10 ^ fracDigits.length * 10 ^ (-e).toNat)
        some (value, rest)

/-- Parser modes for the fueled JSON parser: a value, the members of an
object (after the opening bracket), or the elements of an array.  The flag
marks whether the closing bracket may come immediately. -/
inductive PMode where
  | value
  | members (first : Bool)
  | elems (first : Bool)

/-- Fueled recursive JSON parser, modelling `serde_json`'s grammar.  In
member/element mode the result is wrapped as `Json.obj`/`Json.arr`. -/
def parseF : Nat → PMode → List Char → Option (Json × List Char)
  | 0, _, _ => none
  | fuel + 1, .value, cs =>
    match skipWs cs with
    | [] => none
    | c :: rest =>
      if c = Char.ofNat 34 then
        match parseStrChars rest with
        | some (sc, rest2) => some (.str (String.mk sc), rest2)
        | none => none
      else if c = Char.ofNat 123 then parseF fuel (.members true) rest
      else if c = Char.ofNat 91 then parseF fuel (.elems true) rest
      else if c = 't' then
        match rest with
        | 'r' :: 'u' :: 'e' :: rest2 => some (.bool true, rest2)
        | _ => none
      else if c = 'f' then
        match rest with
        | 'a' :: 'l' :: 's' :: 'e' :: rest2 => some (.bool false, rest2)
        | _ => none
      else if c = 'n' then
        match rest with
        | 'u' :: 'l' :: 'l' :: rest2 => some (.null, rest2)
        | _ => none
      else
        match parseNumber (c :: rest) with
        | some (q, rest2) => some (.num q, rest2)
        | none => none
  | fuel + 1, .members first, cs =>
    match skipWs cs with
    | [] => none
    | c :: rest =>
      if first && c = Char.ofNat 125 then some (.obj [], rest)
      else if c = Char.ofNat 34 then
        match parseStrChars rest with
        | none => none
        | some (key, rest2) =>
          match skipWs rest2 with
          | ':' :: rest3 =>
            match parseF fuel .value rest3 with
            | none => none
            | some (v, rest4) =>
              match skipWs rest4 with
              | ',' :: rest5 =>
                match parseF fuel (.members false) rest5 with
                | some (.obj fs, rest6) => some (.obj ((String.mk key, v) :: fs), rest6)
                | _ => none
              | c2 :: rest5 =>
                if c2 = Char.ofNat 125 then some (.obj [(String.mk key, v)], rest5)
                else none
              | [] => none
          | _ => none
      else none
  | fuel + 1, .elems first, cs =>
    match skipWs cs with
    | [] => none
    | c :: rest =>
      if first && c = Char.ofNat 93 then some (.arr [], rest)
      else
        match parseF fuel .value (c :: rest) with
        | none => none
        | some (v, rest2) =>
          match skipWs rest2 with
          | ',' :: rest3 =>
            match parseF fuel (.elems false) rest3 with
            | some (.arr vs, rest4) => some (.arr (v :: vs), rest4)
            | _ => none
          | c2 :: rest3 =>
            if c2 = Char.ofNat 93 then some (.arr [v], rest3) else none
          | [] => none

/-- Parse of a complete JSON document: one value, with only whitespace
allowed after it (as `serde_json::from_str` requires). -/
def parseJson (s : String) : Option Json :=
  match parseF (2 * s.length + 2) .value s.data with
  | some (v, rest) => if skipWs rest = [] then some v else none
  | none => none

example : parseJson "\x7b\"a\": [1, true, null]\x7d" =
    some (.obj [("a", .arr [.num 1, .bool true, .null])]) := by rfl

/-- The `DetailsResponse` struct from `src/models/mod.rs`: a required `data`
map and an optional `meta` map.  Rust's `HashMap` is modelled as an
association list keeping the fields in source order. -/
structure DetailsResponse where
  data : List (String × Json)
  meta : Option (List (String × Json))

/-- Field loop of serde's derived deserializer for `DetailsResponse`:
walks the top-level object's fields, requires `data` to be an object,
accepts `meta` as an object or null (null and absence both give `none`),
rejects duplicate struct fields, and skips unknown fields. -/
def detailsFields : List (String × Json) → Option (List (String × Json)) →
    Option (Option (List (String × Json))) → Option DetailsResponse
  | [], dataF, metaF =>
    match dataF with
    | some d => some { data := d, meta := match metaF with | some m => m | none => none }
    | none => none
  | (k, v) :: rest, dataF, metaF =>
    if k = "data" then
      match dataF, v with
      | none, .obj fs => detailsFields rest (some fs) metaF
      | _, _ => none
    else if k = "meta" then
      match metaF, v with
      | none, .null => detailsFields rest dataF (some none)
      | none, .obj fs => detailsFields rest dataF (some (some fs))
      | _, _ => none
    else detailsFields rest dataF metaF

/-- Decode of a JSON value into `DetailsResponse`: the value must be an
object, whose fields are processed by `detailsFields`. -/
def decodeDetails (j : Json) : Option DetailsResponse :=
  match j with
  | .obj fs => detailsFields fs none none
  | _ => none

/-- Model of `serde_json::from_str::<DetailsResponse>`: parse the body as a
complete JSON document, then decode it. -/
def from_str (s : String) : Option DetailsResponse :=
  match parseJson s with
  | some j => decodeDetails j
  | none => none

/-- The `Settings` struct from `src/api/mod.rs`: the immutable holder of the
API key. -/
structure Settings where
  api_key : String
deriving DecidableEq, Repr

/-- The `Currencyapi` struct from `src/api/mod.rs`.  The `reqwest::Client`
field is external transport state with no observable configuration beyond
what `construct_client` sets, so only the settings are modelled. -/
structure Currencyapi where
  settings : Settings
deriving DecidableEq, Repr

/-- Validity of an HTTP header value as checked by
`HeaderValue::from_str`: horizontal tab or visible ASCII / space. -/
def headerValueOk (s : String) : Bool :=
  (utf8Bytes s).all (fun b => b == 9 || (32 ≤ b && b ≤ 126))

/-- The `construct_client` function from `src/utils.rs`: builds the default
header map with `Content-Type: application/json` (`HeaderValue::from_str`
can fail on invalid bytes, propagated by `?`) and then the reqwest client.
The builder's own failure is environment-dependent and modelled as success;
the client value itself is opaque and modelled as `Unit`. -/
def construct_client (_user_agent : Option String) (_settings : Settings) :
    Except CurrencyapiError Unit :=
  if headerValueOk "application/json" then .ok () else .error .clientConstruction

/-- The `Currencyapi::new` constructor from `src/api/mod.rs`: stores the key
in `Settings` and builds the client. -/
def Currencyapi.new (api_key : String) : Except CurrencyapiError Currencyapi :=
  let settings : Settings := { api_key := api_key }
  match construct_client none settings with
  | .ok _ => .ok { settings := settings }
  | .error e => .error e

/-- The 8-bit signed integer range of Rust's `i8`, the declared type of
`Currencyapi::convert`'s `value` parameter. -/
def I8 := { v : Int // -128 ≤ v ∧ v ≤ 127 }

/-- The URL `Currencyapi::status` sends its GET to. -/
def Currencyapi.statusUrl (c : Currencyapi) : Except CurrencyapiError Url :=
  construct_base_url c.settings.api_key (some "status")

/-- The URL `Currencyapi::currencies` sends its GET to. -/
def Currencyapi.currenciesUrl (c : Currencyapi) : Except CurrencyapiError Url :=
  construct_base_url c.settings.api_key (some "currencies")

/-- The URL `Currencyapi::latest` sends its GET to: the base URL for path
`latest`, then `base_currency` and `currencies` appended. -/
def Currencyapi.latestUrl (c : Currencyapi) (base_currency currencies : String) :
    Except CurrencyapiError Url :=
  (construct_base_url c.settings.api_key (some "latest")).map
    (fun u => (u.appendPair "base_currency" base_currency).appendPair "currencies" currencies)

/-- The URL `Currencyapi::historical` sends its GET to: the base URL for path
`historical`, then `base_currency`, `date` and `currencies` appended. -/
def Currencyapi.historicalUrl (c : Currencyapi) (base_currency date currencies : String) :
    Except CurrencyapiError Url :=
  (construct_base_url c.settings.api_key (some "historical")).map
    (fun u => ((u.appendPair "base_currency" base_currency).appendPair "date" date).appendPair
      "currencies" currencies)

/-- The URL `Currencyapi::convert` sends its GET to: the base URL for path
`convert`, then `base_currency`, `date`, `value` (decimal string of the
`i8`) and `currencies` appended. -/
def Currencyapi.convertUrl (c : Currencyapi) (base_currency date : String) (value : I8)
    (currencies : String) : Except CurrencyapiError Url :=
  (construct_base_url c.settings.api_key (some "convert")).map
    (fun u => (((u.appendPair "base_currency" base_currency).appendPair "date" date).appendPair
      "value" (toString value.val)).appendPair "currencies" currencies)

/-- The URL `Currencyapi::range` sends its GET to: the base URL for path
`range`, then `base_currency`, `datetime_start`, `datetime_end`, `accuracy`
and `currencies` appended (the last two in the opposite order to the
function's parameters, as in the source). -/
def Currencyapi.rangeUrl (c : Currencyapi) (base_currency datetime_start datetime_end
    currencies accuracy : String) : Except CurrencyapiError Url :=
  (construct_base_url c.settings.api_key (some "range")).map
    (fun u => ((((u.appendPair "base_currency" base_currency).appendPair
      "datetime_start" datetime_start).appendPair
      "datetime_end" datetime_end).appendPair
      "accuracy" accuracy).appendPair "currencies" currencies)

/-- The shared response step of every operation (e.g. lines 56-57 of
`src/api/mod.rs`): parse the body text, mapping a parse failure to
`ResponseParsingError` carrying that body. -/
def handleResponse (res_body : String) : Except CurrencyapiError DetailsResponse :=
  match from_str res_body with
  | some r => .ok r
  | none => .error (.responseParsingError res_body)

/-- The `Currencyapi::status` operation.  The GET and body read are external
transport steps; `res_body` is the text the transport returned (a transport
failure would surface as `RequestError` before this step). -/
def Currencyapi.status (c : Currencyapi) (res_body : String) :
    Except CurrencyapiError DetailsResponse := do
  let _url ← c.statusUrl
  handleResponse res_body

/-- The `Currencyapi::currencies` operation, with `res_body` the text the
transport returned. -/
def Currencyapi.currencies (c : Currencyapi) (res_body : String) :
    Except CurrencyapiError DetailsResponse := do
  let _url ← c.currenciesUrl
  handleResponse res_body

/-- The `Currencyapi::latest` operation, with `res_body` the text the
transport returned. -/
def Currencyapi.latest (c : Currencyapi) (base_currency currencies : String)
    (res_body : String) : Except CurrencyapiError DetailsResponse := do
  let _url ← c.latestUrl base_currency currencies
  handleResponse res_body

/-- The `Currencyapi::historical` operation, with `res_body` the text the
transport returned. -/
def Currencyapi.historical (c : Currencyapi) (base_currency date currencies : String)
    (res_body : String) : Except CurrencyapiError DetailsResponse := do
  let _url ← c.historicalUrl base_currency date currencies
  handleResponse res_body

/-- The `Currencyapi::convert` operation, with `res_body` the text the
transport returned. -/
def Currencyapi.convert (c : Currencyapi) (base_currency date : String) (value : I8)
    (currencies : String) (res_body : String) : Except CurrencyapiError DetailsResponse := do
  let _url ← c.convertUrl base_currency date value currencies
  handleResponse res_body

/-- The `Currencyapi::range` operation, with `res_body` the text the
transport returned. -/
def Currencyapi.range (c : Currencyapi) (base_currency datetime_start datetime_end
    currencies accuracy : String) (res_body : String) :
    Except CurrencyapiError DetailsResponse := do
  let _url ← c.rangeUrl base_currency datetime_start datetime_end currencies accuracy
  handleResponse res_body

example : from_str "\x7b\"data\": \x7b\"USD\": 1\x7d, \"meta\": \x7b\"last_updated_at\": \"x\"\x7d\x7d" =
    some ⟨[("USD", Json.num 1)], some [("last_updated_at", Json.str "x")]⟩ := by rfl

example : from_str "\x7b\"data\": \x7b\x7d\x7d" = some ⟨[], none⟩ := by rfl

example : from_str "not json" = none := by rfl

example : (Currencyapi.latestUrl ⟨⟨"abc"⟩⟩ "USD" "EUR,GBP").map Url.serialize =
    .ok "https://api.currencyapi.com/v3/latest?apikey=abc&base_currency=USD&currencies=EUR%2CGBP" := by
  rfl

/-! Helper lemmas: the exact URL each operation issues its GET against,
for an arbitrary API key and arbitrary arguments. -/

/-- Value of the `status` request URL. -/
theorem statusUrl_eq (key : String) : Currencyapi.statusUrl ⟨⟨key⟩⟩ =
    .ok ⟨"https", "api.currencyapi.com", "/v3/status", some [encPair "apikey" key]⟩ := rfl

/-- Value of the `currencies` request URL. -/
theorem currenciesUrl_eq (key : String) : Currencyapi.currenciesUrl ⟨⟨key⟩⟩ =
    .ok ⟨"https", "api.currencyapi.com", "/v3/currencies", some [encPair "apikey" key]⟩ := rfl

/-- Value of the `latest` request URL. -/
theorem latestUrl_eq (key b cs : String) : Currencyapi.latestUrl ⟨⟨key⟩⟩ b cs =
    .ok ⟨"https", "api.currencyapi.com", "/v3/latest",
      some [encPair "apikey" key, encPair "base_currency" b, encPair "currencies" cs]⟩ := rfl

/-- Value of the `historical` request URL. -/
theorem historicalUrl_eq (key b d cs : String) : Currencyapi.historicalUrl ⟨⟨key⟩⟩ b d cs =
    .ok ⟨"https", "api.currencyapi.com", "/v3/historical",
      some [encPair "apikey" key, encPair "base_currency" b, encPair "date" d,
        encPair "currencies" cs]⟩ := rfl

/-- Value of the `convert` request URL. -/
theorem convertUrl_eq (key b d cs : String) (v : I8) : Currencyapi.convertUrl ⟨⟨key⟩⟩ b d v cs =
    .ok ⟨"https", "api.currencyapi.com", "/v3/convert",
      some [encPair "apikey" key, encPair "base_currency" b, encPair "date" d,
        encPair "value" (toString v.val), encPair "currencies" cs]⟩ := rfl

/-- Value of the `range` request URL. -/
theorem rangeUrl_eq (key b ds de cs a : String) : Currencyapi.rangeUrl ⟨⟨key⟩⟩ b ds de cs a =
    .ok ⟨"https", "api.currencyapi.com", "/v3/range",
      some [encPair "apikey" key, encPair "base_currency" b, encPair "datetime_start" ds,
        encPair "datetime_end" de, encPair "accuracy" a, encPair "currencies" cs]⟩ := rfl

/-- Claim C1, counterexample: the constructor accepts the empty API key, so
"the Settings' API key is non-empty" is not an invariant of the client — a
client with an empty key is reachable and its `status` request URL carries
`apikey=` with an empty value. -/
theorem claim_C1_counterexample :
    Currencyapi.new "" = .ok ⟨⟨""⟩⟩ ∧
    Currencyapi.statusUrl ⟨⟨""⟩⟩ =
      .ok ⟨"https", "api.currencyapi.com", "/v3/status", some ["apikey="]⟩ :=
  ⟨rfl, rfl⟩

/-- Claim C1 (amended: the key need not be non-empty — nothing enforces it):
for every API key, every request URL built by any of the six operations
carries that key as the first query parameter `apikey`, and the base URL's
path prefix `/v3/` is preserved, with the operation's sub-path appended
after it. -/
theorem claim_C1_theorem (key b d ds de cs a : String) (v : I8) :
    (∃ r, Currencyapi.statusUrl ⟨⟨key⟩⟩ =
      .ok ⟨"https", "api.currencyapi.com", "/v3/" ++ "status",
        some (encPair "apikey" key :: r)⟩) ∧
    (∃ r, Currencyapi.currenciesUrl ⟨⟨key⟩⟩ =
      .ok ⟨"https", "api.currencyapi.com", "/v3/" ++ "currencies",
        some (encPair "apikey" key :: r)⟩) ∧
    (∃ r, Currencyapi.latestUrl ⟨⟨key⟩⟩ b cs =
      .ok ⟨"https", "api.currencyapi.com", "/v3/" ++ "latest",
        some (encPair "apikey" key :: r)⟩) ∧
    (∃ r, Currencyapi.historicalUrl ⟨⟨key⟩⟩ b d cs =
      .ok ⟨"https", "api.currencyapi.com", "/v3/" ++ "historical",
        some (encPair "apikey" key :: r)⟩) ∧
    (∃ r, Currencyapi.convertUrl ⟨⟨key⟩⟩ b d v cs =
      .ok ⟨"https", "api.currencyapi.com", "/v3/" ++ "convert",
        some (encPair "apikey" key :: r)⟩) ∧
    (∃ r, Currencyapi.rangeUrl ⟨⟨key⟩⟩ b ds de cs a =
      .ok ⟨"https", "api.currencyapi.com", "/v3/" ++ "range",
        some (encPair "apikey" key :: r)⟩) :=
  ⟨⟨[], rfl⟩, ⟨[], rfl⟩,
   ⟨[encPair "base_currency" b, encPair "currencies" cs], rfl⟩,
   ⟨[encPair "base_currency" b, encPair "date" d, encPair "currencies" cs], rfl⟩,
   ⟨[encPair "base_currency" b, encPair "date" d, encPair "value" (toString v.val),
      encPair "currencies" cs], rfl⟩,
   ⟨[encPair "base_currency" b, encPair "datetime_start" ds, encPair "datetime_end" de,
      encPair "accuracy" a, encPair "currencies" cs], rfl⟩⟩

/-- Claim C2, counterexample: for the non-empty API key `"a b"` the built
query string is `apikey=a+b` (the space form-urlencoded), not literally
`apikey=<k>` with the key substituted verbatim. -/
theorem claim_C2_counterexample :
    "a b" ≠ "" ∧
    construct_base_url "a b" none =
      .ok ⟨"https", "api.currencyapi.com", "/v3/", some ["apikey=a+b"]⟩ ∧
    ("apikey=a+b" : String) ≠ "apikey=" ++ "a b" :=
  ⟨by decide, rfl, by decide⟩

/-- Claim C2 (amended: the key's value appears form-urlencoded, which is the
key itself exactly when the key only contains bytes the encoding keeps):
for every non-empty API key `k`, `construct_base_url k none` returns a URL
whose path is exactly `/v3/` and whose query string is exactly
`apikey=<form-urlencoding of k>`. -/
theorem claim_C2_theorem (key : String) (_hk : key ≠ "") :
    ∃ u, construct_base_url key none = .ok u ∧ u.path = "/v3/" ∧
      u.queryString = some ("apikey=" ++ formEncode key) :=
  ⟨⟨"https", "api.currencyapi.com", "/v3/", some [encPair "apikey" key]⟩, rfl, rfl, rfl⟩

/-- Witness for C2 at the concrete key `123`. -/
theorem claim_C2_witness :
    "123" ≠ "" ∧
    (∃ u, construct_base_url "123" none = .ok u ∧ u.path = "/v3/" ∧
      u.queryString = some ("apikey=" ++ formEncode "123")) :=
  ⟨by decide, claim_C2_theorem "123" (by decide)⟩

/-- Claim C3: for every non-empty API key, the paths `test/path` and
`/test/path` produce the same URL, whose path component is
`/v3/test/path`. -/
theorem claim_C3_theorem (key : String) (_hk : key ≠ "") :
    construct_base_url key (some "test/path") = construct_base_url key (some "/test/path") ∧
    construct_base_url key (some "test/path") =
      .ok ⟨"https", "api.currencyapi.com", "/v3/test/path", some [encPair "apikey" key]⟩ :=
  ⟨rfl, rfl⟩

/-- Witness for C3 at the concrete key `123`. -/
theorem claim_C3_witness :
    "123" ≠ "" ∧
    (construct_base_url "123" (some "test/path") =
      construct_base_url "123" (some "/test/path") ∧
     construct_base_url "123" (some "test/path") =
      .ok ⟨"https", "api.currencyapi.com", "/v3/test/path", some [encPair "apikey" "123"]⟩) :=
  ⟨by decide, claim_C3_theorem "123" (by decide)⟩

/-- Claim C4: `latest("USD", "EUR,GBP")` with API key `abc` issues its GET
against exactly
`https://api.currencyapi.com/v3/latest?apikey=abc&base_currency=USD&currencies=EUR%2CGBP`,
the comma percent-encoded. -/
theorem claim_C4_theorem :
    (Currencyapi.latestUrl ⟨⟨"abc"⟩⟩ "USD" "EUR,GBP").map Url.serialize =
      .ok "https://api.currencyapi.com/v3/latest?apikey=abc&base_currency=USD&currencies=EUR%2CGBP" :=
  rfl

/-- Claim C5: for every operation and all argument values, the
operation-specific query pairs appear in the query in the fixed documented
order, after `apikey`; in particular `range` appends `base_currency`,
`datetime_start`, `datetime_end`, `accuracy`, `currencies` — with
`accuracy` before `currencies`, unlike the function's parameter order. -/
theorem claim_C5_theorem (key b d ds de cs a : String) (v : I8) :
    Currencyapi.statusUrl ⟨⟨key⟩⟩ =
      .ok ⟨"https", "api.currencyapi.com", "/v3/status", some [encPair "apikey" key]⟩ ∧
    Currencyapi.currenciesUrl ⟨⟨key⟩⟩ =
      .ok ⟨"https", "api.currencyapi.com", "/v3/currencies", some [encPair "apikey" key]⟩ ∧
    Currencyapi.latestUrl ⟨⟨key⟩⟩ b cs =
      .ok ⟨"https", "api.currencyapi.com", "/v3/latest",
        some [encPair "apikey" key, encPair "base_currency" b, encPair "currencies" cs]⟩ ∧
    Currencyapi.historicalUrl ⟨⟨key⟩⟩ b d cs =
      .ok ⟨"https", "api.currencyapi.com", "/v3/historical",
        some [encPair "apikey" key, encPair "base_currency" b, encPair "date" d,
          encPair "currencies" cs]⟩ ∧
    Currencyapi.convertUrl ⟨⟨key⟩⟩ b d v cs =
      .ok ⟨"https", "api.currencyapi.com", "/v3/convert",
        some [encPair "apikey" key, encPair "base_currency" b, encPair "date" d,
          encPair "value" (toString v.val), encPair "currencies" cs]⟩ ∧
    Currencyapi.rangeUrl ⟨⟨key⟩⟩ b ds de cs a =
      .ok ⟨"https", "api.currencyapi.com", "/v3/range",
        some [encPair "apikey" key, encPair "base_currency" b, encPair "datetime_start" ds,
          encPair "datetime_end" de, encPair "accuracy" a, encPair "currencies" cs]⟩ :=
  ⟨statusUrl_eq key, currenciesUrl_eq key, latestUrl_eq key b cs,
   historicalUrl_eq key b d cs, convertUrl_eq key b d cs v, rangeUrl_eq key b ds de cs a⟩

/-- Claim C6: the body with a `data` and a `meta` object decodes to that
data and `meta = some`; the body with only an empty `data` object decodes
with `meta = none`. -/
theorem claim_C6_theorem :
    from_str "\x7b\"data\": \x7b\"USD\": 1\x7d, \"meta\": \x7b\"last_updated_at\": \"x\"\x7d\x7d" =
      some ⟨[("USD", Json.num 1)], some [("last_updated_at", Json.str "x")]⟩ ∧
    from_str "\x7b\"data\": \x7b\x7d\x7d" = some ⟨[], none⟩ :=
  ⟨rfl, rfl⟩

/-- Claim C7: for every response body, every operation returns
`ResponseParsingError` carrying exactly that body when the body does not
decode as a `DetailsResponse`, and returns the decoded response (no error)
when it does. -/
theorem claim_C7_theorem (body key b d ds de cs a : String) (v : I8) :
    (from_str body = none →
      Currencyapi.status ⟨⟨key⟩⟩ body = .error (.responseParsingError body) ∧
      Currencyapi.currencies ⟨⟨key⟩⟩ body = .error (.responseParsingError body) ∧
      Currencyapi.latest ⟨⟨key⟩⟩ b cs body = .error (.responseParsingError body) ∧
      Currencyapi.historical ⟨⟨key⟩⟩ b d cs body = .error (.responseParsingError body) ∧
      Currencyapi.convert ⟨⟨key⟩⟩ b d v cs body = .error (.responseParsingError body) ∧
      Currencyapi.range ⟨⟨key⟩⟩ b ds de cs a body = .error (.responseParsingError body)) ∧
    (∀ r, from_str body = some r →
      Currencyapi.status ⟨⟨key⟩⟩ body = .ok r ∧
      Currencyapi.currencies ⟨⟨key⟩⟩ body = .ok r ∧
      Currencyapi.latest ⟨⟨key⟩⟩ b cs body = .ok r ∧
      Currencyapi.historical ⟨⟨key⟩⟩ b d cs body = .ok r ∧
      Currencyapi.convert ⟨⟨key⟩⟩ b d v cs body = .ok r ∧
      Currencyapi.range ⟨⟨key⟩⟩ b ds de cs a body = .ok r) := by
  have h1 : Currencyapi.status ⟨⟨key⟩⟩ body = handleResponse body := rfl
  have h2 : Currencyapi.currencies ⟨⟨key⟩⟩ body = handleResponse body := rfl
  have h3 : Currencyapi.latest ⟨⟨key⟩⟩ b cs body = handleResponse body := rfl
  have h4 : Currencyapi.historical ⟨⟨key⟩⟩ b d cs body = handleResponse body := rfl
  have h5 : Currencyapi.convert ⟨⟨key⟩⟩ b d v cs body = handleResponse body := rfl
  have h6 : Currencyapi.range ⟨⟨key⟩⟩ b ds de cs a body = handleResponse body := rfl
  constructor
  · intro h
    simp [h1, h2, h3, h4, h5, h6, handleResponse, h]
  · intro r h
    simp [h1, h2, h3, h4, h5, h6, handleResponse, h]

/-- Witness for C7: the non-JSON body `not json` makes `status` fail with
`ResponseParsingError` carrying that body, and a well-formed body makes
`range` succeed. -/
theorem claim_C7_witness :
    Currencyapi.status ⟨⟨"k"⟩⟩ "not json" = .error (.responseParsingError "not json") ∧
    Currencyapi.range ⟨⟨"k"⟩⟩ "b" "ds" "de" "cs" "a" "\x7b\"data\": \x7b\x7d\x7d" =
      .ok ⟨[], none⟩ :=
  ⟨(( claim_C7_theorem "not json" "k" "b" "d" "ds" "de" "cs" "a" ⟨1, by decide⟩).1
      (by rfl)).1,
   ((( claim_C7_theorem "\x7b\"data\": \x7b\x7d\x7d" "k" "b" "d" "ds" "de" "cs" "a"
      ⟨1, by decide⟩).2 ⟨[], none⟩ (by rfl)).2.2.2.2.2)⟩

/-- Claim C8: the `UrlConstructionError` branch is unreachable — the fixed
base URL constant parses, and `construct_base_url` returns `Ok` for every
API key and every optional path. -/
theorem claim_C8_theorem :
    parseUrl BASE_URL = some ⟨"https", "api.currencyapi.com", "/v3/", none⟩ ∧
    ∀ (key : String) (p : Option String), ∃ u, construct_base_url key p = .ok u :=
  ⟨rfl, fun key p => by cases p <;> exact ⟨_, rfl⟩⟩

/-- Claim C9: `convert`'s `value` parameter has Rust type `i8`, so every
interface value lies in the 8-bit signed range, and the operation appends
the pair `value=<decimal representation>` between the `date` and
`currencies` pairs. -/
theorem claim_C9_theorem (key b d cs : String) (v : I8) :
    Currencyapi.convertUrl ⟨⟨key⟩⟩ b d v cs =
      .ok ⟨"https", "api.currencyapi.com", "/v3/convert",
        some [encPair "apikey" key, encPair "base_currency" b, encPair "date" d,
          encPair "value" (toString v.val), encPair "currencies" cs]⟩ ∧
    -128 ≤ v.val ∧ v.val ≤ 127 :=
  ⟨convertUrl_eq key b d cs v, v.property.1, v.property.2⟩

/-- Claim C10 (implicit): the empty API key is accepted — `new("")`
succeeds — and every request URL built from such a client carries the
query pair `apikey` with an empty value. -/
theorem claim_C10_theorem (b d ds de cs a : String) (v : I8) :
    Currencyapi.new "" = .ok ⟨⟨""⟩⟩ ∧
    Currencyapi.statusUrl ⟨⟨""⟩⟩ =
      .ok ⟨"https", "api.currencyapi.com", "/v3/status", some ["apikey="]⟩ ∧
    Currencyapi.currenciesUrl ⟨⟨""⟩⟩ =
      .ok ⟨"https", "api.currencyapi.com", "/v3/currencies", some ["apikey="]⟩ ∧
    Currencyapi.latestUrl ⟨⟨""⟩⟩ b cs =
      .ok ⟨"https", "api.currencyapi.com", "/v3/latest",
        some ["apikey=", encPair "base_currency" b, encPair "currencies" cs]⟩ ∧
    Currencyapi.historicalUrl ⟨⟨""⟩⟩ b d cs =
      .ok ⟨"https", "api.currencyapi.com", "/v3/historical",
        some ["apikey=", encPair "base_currency" b, encPair "date" d,
          encPair "currencies" cs]⟩ ∧
    Currencyapi.convertUrl ⟨⟨""⟩⟩ b d v cs =
      .ok ⟨"https", "api.currencyapi.com", "/v3/convert",
        some ["apikey=", encPair "base_currency" b, encPair "date" d,
          encPair "value" (toString v.val), encPair "currencies" cs]⟩ ∧
    Currencyapi.rangeUrl ⟨⟨""⟩⟩ b ds de cs a =
      .ok ⟨"https", "api.currencyapi.com", "/v3/range",
        some ["apikey=", encPair "base_currency" b, encPair "datetime_start" ds,
          encPair "datetime_end" de, encPair "accuracy" a, encPair "currencies" cs]⟩ :=
  ⟨rfl, rfl, rfl, rfl, rfl, rfl, rfl⟩
